import Mathlib

/-!
Shallow embedding of `src/agent.py` (ChatDB): a glue layer that wires a
chat-UI session store, a SQL database tool adapter, a vector store and an
LLM agent. Effectful Python code is modelled by explicit state passing
(session state, pinecone client state, the UI framework's resource cache)
and by an explicit event trace for the database side effects of
`load_data`. Fallible Python code (raised exceptions) returns `Except`.

Types that live in this repository's `common.py` (not present under
`src/`) are modelled from the spec and marked as such in their doc
comments. Third-party behaviour that the claims depend on (the resource
cache decorator memoising by argument key, the pinecone client's index
list, the base tool's `spec_functions` list) is embedded as the documented
behaviour of those libraries.
-/

namespace ChatDB

/-- A single column value of a SQL result row, as far as the claims need
it: an integer or a string, with Python's `str` conversion. -/
inductive Entry where
  | intE : Int → Entry
  | strE : String → Entry
deriving DecidableEq

/-- Python `str` applied to a column value. -/
def Entry.pyStr : Entry → String
  | Entry.intE n => toString n
  | Entry.strE s => s

/-- A result row is the list of its column values. -/
abbrev Row := List Entry

/-- Model of `llama_index.Document`: a unit of retrievable text. -/
structure Document where
  text : String
deriving DecidableEq

/-- Python exceptions that the embedded code can raise. -/
inductive PyError where
  | valueError : String → PyError
  | attributeError : String → PyError
  | keyError : String → PyError
deriving DecidableEq

/-- Semantics of the SQL engine behind a connection URI: what rows each
query returns, which tables exist, and the engine-level description text
the base tool's `describe_tables` produces for a list of tables (the base
tool's implementation is third-party; it is abstracted as a function of
the engine). -/
structure Database where
  exec : String → List Row
  tables : List String
  describe_tables : List String → String

/-- The handler functions that occur in the program. The only handler the
source ever registers is `database_spec_handler`. -/
inductive HandlerRef where
  | databaseSpecHandler : HandlerRef
deriving DecidableEq

/-- The adapter object. The Python class declares `handler` only as a
class-level annotation without a value, so the attribute does not exist on
a fresh instance until `set_handler` assigns it: `handler = none` models
the unset attribute, `some none` models an attribute set to Python `None`
(falsy), and `some (some h)` a registered callable (truthy). -/
structure TrackingDatabaseToolSpec where
  sql_database : Database
  handler : Option (Option HandlerRef)

/-- The method `set_handler(func)` assigns the attribute, whatever `func` is. -/
def TrackingDatabaseToolSpec.set_handler (spec : TrackingDatabaseToolSpec)
    (func : Option HandlerRef) : TrackingDatabaseToolSpec :=
  { spec with handler := some func }

/-- Method `list_tables` of the base tool: the engine's table list. -/
def TrackingDatabaseToolSpec.list_tables (spec : TrackingDatabaseToolSpec) : List String :=
  spec.sql_database.tables

/-- Method `describe_tables` of the base tool: the engine-level description. -/
def TrackingDatabaseToolSpec.describe_tables (spec : TrackingDatabaseToolSpec)
    (tables : List String) : String :=
  spec.sql_database.describe_tables tables

/-- Observable database side effects of one `load_data` call, in order:
opening a connection (entering the `with` block), executing SQL, and
invoking the registered handler with the query and the fetched rows. -/
inductive DbEvent where
  | connect : DbEvent
  | execSQL : String → DbEvent
  | handlerCall : String → List Row → DbEvent
deriving DecidableEq

/-- The document built from one fetched row: its column values converted
with `str` and joined with `", "`. -/
def row_document (item : Row) : Document :=
  Document.mk (String.intercalate ", " (item.map Entry.pyStr))

/-- Method `TrackingDatabaseToolSpec.load_data`. The source enters
`with self.sql_database.engine.connect()` first — so a connection is
opened before the `query is None` test — then raises `ValueError` on a
`None` query, otherwise executes the query, fetches all rows, evaluates
`if self.handler:` (an `AttributeError` if the attribute was never
assigned; skipped if it is falsy; a handler call if truthy) and returns
one document per row. The result is paired with the event trace. -/
def load_data (spec : TrackingDatabaseToolSpec) (query : Option String) :
    Except PyError (List Document) × List DbEvent :=
  match query with
  | none =>
      (Except.error (PyError.valueError "A query parameter is necessary to filter the data"),
       [DbEvent.connect])
  | some q =>
      let items := spec.sql_database.exec q
      match spec.handler with
      | none =>
          (Except.error (PyError.attributeError "handler"),
           [DbEvent.connect, DbEvent.execSQL q])
      | some none =>
          (Except.ok (items.map row_document),
           [DbEvent.connect, DbEvent.execSQL q])
      | some (some _h) =>
          (Except.ok (items.map row_document),
           [DbEvent.connect, DbEvent.execSQL q, DbEvent.handlerCall q items])

/-- Modelled from the spec: `DatabaseProps` (from `common.py`, not under
`src/`) is the connection URI for a SQL database. -/
structure DatabaseProps where
  uri : String
deriving DecidableEq

/-- Modelled from the spec: the vector-store discriminator (in-memory vs
hosted) from `common.py`. -/
inductive VectorStoreType where
  | InMemory : VectorStoreType
  | PineconeDB : VectorStoreType
deriving DecidableEq

/-- Modelled from the spec: `VectorStoreProps` (from `common.py`): a
discriminator plus the hosted-specific fields (API key, environment,
index name). -/
structure VectorStoreProps where
  store_type : VectorStoreType
  api_key : String
  environment : String
  index_name : String
deriving DecidableEq

/-- Modelled from the spec: `get_vector_store_type` (from `common.py`)
reads the descriptor's discriminator. -/
def get_vector_store_type (props : VectorStoreProps) : VectorStoreType :=
  props.store_type

/-- Modelled from the spec: `Conversation` (from `common.py`): a
vector-store id, a list of database ids and a mutable queue of
(query, result rows) pairs. -/
structure Conversation where
  vector_store_id : String
  database_ids : List String
  query_results_queue : List (String × List Row)

/-- The streamlit session state surface used by `agent.py`:
`st.session_state.databases`, `.vector_stores`, `.conversations` (mappings
keyed by id, a failed lookup raising `KeyError`) and the
`current_conversation` pointer. -/
structure SessionState where
  databases : String → Option DatabaseProps
  vector_stores : String → Option VectorStoreProps
  conversations : String → Option Conversation
  current_conversation : String

/-- Function `database_spec_handler(query, items)`: looks up the currently active
conversation in the session state and appends `(query, items)` to its
query-results queue. A missing conversation raises `KeyError`. -/
def database_spec_handler (st : SessionState) (query : String) (items : List Row) :
    Except PyError SessionState :=
  match st.conversations st.current_conversation with
  | none => Except.error (PyError.keyError st.current_conversation)
  | some conv =>
      Except.ok { st with
        conversations := fun cid =>
          if cid = st.current_conversation then
            some { conv with query_results_queue := conv.query_results_queue ++ [(query, items)] }
          else st.conversations cid }

/-- Applies the session-state effects of a `load_data` event trace: each
handler-call event runs `database_spec_handler` (the only handler the
program registers). -/
def apply_events : SessionState → List DbEvent → Except PyError SessionState
  | st, [] => Except.ok st
  | st, DbEvent.connect :: rest => apply_events st rest
  | st, DbEvent.execSQL _ :: rest => apply_events st rest
  | st, DbEvent.handlerCall q items :: rest =>
      match database_spec_handler st q items with
      | Except.error e => Except.error e
      | Except.ok st1 => apply_events st1 rest

/-- Executes a sequence of queries through the database tool (each one a
`load_data` call whose handler effects are applied to the session
state). -/
def run_queries (spec : TrackingDatabaseToolSpec) :
    SessionState → List String → Except PyError SessionState
  | st, [] => Except.ok st
  | st, q :: rest =>
      match apply_events st (load_data spec (some q)).2 with
      | Except.error e => Except.error e
      | Except.ok st1 => run_queries spec st1 rest

/-- State of the hosted pinecone service as the program observes and
mutates it: the set of existing index names, plus logs of the client
initialisation calls and the index-creation calls issued. -/
structure PineconeState where
  indexes : List String
  init_calls : List (String × String)
  create_calls : List (String × Nat × String)
deriving DecidableEq

/-- The vector store placed inside a storage context: a fresh in-memory
`SimpleVectorStore`, or a `PineconeVectorStore` bound to the named remote
index. -/
inductive VectorStore where
  | simple : VectorStore
  | pinecone : String → VectorStore
deriving DecidableEq

/-- Model of `llama_index.StorageContext.from_defaults(vector_store=...)`. -/
structure StorageContext where
  vector_store : VectorStore
deriving DecidableEq

/-- The body of `get_storage_context` (the undecorated function): looks up
the descriptor, returns a fresh in-memory store for the in-memory case;
for the hosted case calls `pinecone.init` with the descriptor's API key
and environment, creates the named index (dimension 1536, metric
"cosine") when `index_name not in pinecone.list_indexes()`, and binds to
the named index. -/
def get_storage_context_body (st : SessionState) (ps : PineconeState)
    (vector_store_id : String) : PineconeState × Except PyError StorageContext :=
  match st.vector_stores vector_store_id with
  | none => (ps, Except.error (PyError.keyError vector_store_id))
  | some vector_store_props =>
      match get_vector_store_type vector_store_props with
      | VectorStoreType.InMemory =>
          (ps, Except.ok { vector_store := VectorStore.simple })
      | VectorStoreType.PineconeDB =>
          let ps1 := { ps with
            init_calls := ps.init_calls ++ [(vector_store_props.api_key, vector_store_props.environment)] }
          let index_name := vector_store_props.index_name
          let ps2 :=
            if index_name ∈ ps1.indexes then ps1
            else { ps1 with
              indexes := ps1.indexes ++ [index_name],
              create_calls := ps1.create_calls ++ [(index_name, 1536, "cosine")] }
          (ps2, Except.ok { vector_store := VectorStore.pinecone index_name })

/-- Association-list lookup, modelling the key → value store behind the
resource-cache decorator. -/
def lookupAL {α β : Type} [DecidableEq α] : List (α × β) → α → Option β
  | [], _ => none
  | (k, v) :: rest, key => if key = k then some v else lookupAL rest key

/-- Model of `llama_index.tools.ToolMetadata`. -/
structure ToolMetadata where
  name : String
  description : String
deriving DecidableEq

/-- Model of `VectorStoreIndex.from_documents(documents, storage_context)`. -/
structure VectorIndex where
  documents : List Document
  storage_context : StorageContext
deriving DecidableEq

/-- Model of `index.as_query_engine()`. -/
structure QueryEngine where
  index : VectorIndex
deriving DecidableEq

/-- Model of `llama_index.tools.QueryEngineTool`. -/
structure QueryEngineTool where
  query_engine : QueryEngine
  metadata : ToolMetadata
deriving DecidableEq

/-- A tool handed to the agent: either the synthesized query-engine tool,
or one of the base database tool's own functions, closing over the adapter
instance it belongs to. -/
inductive Tool where
  | queryEngine : QueryEngineTool → Tool
  | dbTool : Nat → String → Tool
deriving DecidableEq

/-- Model of `OpenAIAgent.from_tools(tools, verbose=True)`. -/
structure Agent where
  tools : List Tool
  verbose : Bool
deriving DecidableEq

/-- The state of the resource-cache decorator across the four cached
functions, together with a heap of adapter instances (Python object
identity is modelled by a `Nat` instance id allocated per construction;
`spec_heap` maps ids to the adapters' current, mutable state) and logs of
the constructions performed. -/
structure ResourceCache where
  db_specs : List (String × Nat)
  db_spec_constructions : List String
  spec_heap : Nat → TrackingDatabaseToolSpec
  next_db_instance : Nat
  storage_contexts : List (String × StorageContext)
  query_tools : List ((String × String) × QueryEngineTool)
  agents : List ((String × Int) × (Nat × Agent))
  agent_constructions : List (String × Int)
  next_agent_instance : Nat

/-- Cached `get_database_spec`: on a hit returns the cached adapter
instance (id and its current heap state); on a miss looks the id up in
`st.session_state.databases` (a `KeyError` if absent) and constructs a
fresh `TrackingDatabaseToolSpec` for the database's URI (its `handler`
attribute unset). `engines` gives the SQL engine semantics behind each
connection URI. -/
def get_database_spec (st : SessionState) (engines : String → Database)
    (c : ResourceCache) (database_id : String) :
    ResourceCache × Except PyError (Nat × TrackingDatabaseToolSpec) :=
  match lookupAL c.db_specs database_id with
  | some inst => (c, Except.ok (inst, c.spec_heap inst))
  | none =>
      match st.databases database_id with
      | none => (c, Except.error (PyError.keyError database_id))
      | some database =>
          let inst := c.next_db_instance
          let db_spec : TrackingDatabaseToolSpec :=
            { sql_database := engines database.uri, handler := none }
          ({ c with
              db_specs := c.db_specs ++ [(database_id, inst)],
              db_spec_constructions := c.db_spec_constructions ++ [database_id],
              spec_heap := fun n => if n = inst then db_spec else c.spec_heap n,
              next_db_instance := c.next_db_instance + 1 },
           Except.ok (inst, db_spec))

/-- Cached `get_storage_context`: memoises `get_storage_context_body` by
vector-store id; a body that raises caches nothing. -/
def get_storage_context (st : SessionState) (c : ResourceCache) (ps : PineconeState)
    (vector_store_id : String) :
    ResourceCache × PineconeState × Except PyError StorageContext :=
  match lookupAL c.storage_contexts vector_store_id with
  | some sc => (c, ps, Except.ok sc)
  | none =>
      match get_storage_context_body st ps vector_store_id with
      | (ps1, Except.error e) => (c, ps1, Except.error e)
      | (ps1, Except.ok sc) =>
          ({ c with storage_contexts := c.storage_contexts ++ [(vector_store_id, sc)] },
           ps1, Except.ok sc)

/-- Cached `get_query_tool`: obtains the (cached) adapter, builds one
document per table carrying that table's description, obtains the (cached)
storage context, builds a vector index over the documents and wraps its
query engine as a tool named "table_query_engine". -/
def get_query_tool (st : SessionState) (engines : String → Database)
    (c : ResourceCache) (ps : PineconeState) (vector_store_id database_id : String) :
    ResourceCache × PineconeState × Except PyError QueryEngineTool :=
  match lookupAL c.query_tools (vector_store_id, database_id) with
  | some qt => (c, ps, Except.ok qt)
  | none =>
      match get_database_spec st engines c database_id with
      | (c1, Except.error e) => (c1, ps, Except.error e)
      | (c1, Except.ok (_inst, db_spec)) =>
          let table_list := db_spec.list_tables
          let documents := table_list.map (fun table =>
            Document.mk ("Definition of \"" ++ table ++ "\" table:\n" ++
              db_spec.describe_tables [table]))
          match get_storage_context st c1 ps vector_store_id with
          | (c2, ps2, Except.error e) => (c2, ps2, Except.error e)
          | (c2, ps2, Except.ok storage_context) =>
              let index : VectorIndex :=
                { documents := documents, storage_context := storage_context }
              let query_tool : QueryEngineTool :=
                { query_engine := { index := index },
                  metadata := { name := "table_query_engine",
                                description := "Contains table descriptions for the database" } }
              ({ c2 with query_tools :=
                  c2.query_tools ++ [((vector_store_id, database_id), query_tool)] },
               ps2, Except.ok query_tool)

/-- Model of `db_spec.to_tool_list()`: the base tool's `spec_functions`
("load_data", "describe_tables", "list_tables"), each closing over the
adapter instance. -/
def to_tool_list (inst : Nat) : List Tool :=
  [Tool.dbTool inst "load_data", Tool.dbTool inst "describe_tables",
   Tool.dbTool inst "list_tables"]

/-- The tool-building loop of `get_agent`: for each database id of the
conversation, obtains the (cached) adapter and the (cached) query tool,
registers `database_spec_handler` on the adapter instance, and collects
the query tool followed by the adapter's own tool list. -/
def build_tools (st : SessionState) (engines : String → Database) :
    ResourceCache → PineconeState → String → List String →
    ResourceCache × PineconeState × Except PyError (List Tool)
  | c, ps, _vector_store_id, [] => (c, ps, Except.ok [])
  | c, ps, vector_store_id, database_id :: rest =>
      match get_database_spec st engines c database_id with
      | (c1, Except.error e) => (c1, ps, Except.error e)
      | (c1, Except.ok (inst, _db_spec)) =>
          match get_query_tool st engines c1 ps vector_store_id database_id with
          | (c2, ps2, Except.error e) => (c2, ps2, Except.error e)
          | (c2, ps2, Except.ok query_tool) =>
              let h := some HandlerRef.databaseSpecHandler
              let c3 := { c2 with spec_heap := fun n =>
                  if n = inst then (c2.spec_heap n).set_handler h else c2.spec_heap n }
              match build_tools st engines c3 ps2 vector_store_id rest with
              | (c4, ps4, Except.error e) => (c4, ps4, Except.error e)
              | (c4, ps4, Except.ok tools) =>
                  (c4, ps4, Except.ok (Tool.queryEngine query_tool :: (to_tool_list inst ++ tools)))

/-- The body of `get_agent` (the undecorated function). Its
`last_update_timestamp` parameter is bound to `_` by the source and never
used; Python's float timestamp is modelled as `Int`, since it only ever
serves as a cache key compared for equality. -/
def get_agent_body (st : SessionState) (engines : String → Database)
    (c : ResourceCache) (ps : PineconeState) (conversation_id : String)
    (last_update_timestamp : Int) :
    ResourceCache × PineconeState × Except PyError Agent :=
  let _ := last_update_timestamp
  match st.conversations conversation_id with
  | none => (c, ps, Except.error (PyError.keyError conversation_id))
  | some conversation =>
      match build_tools st engines c ps conversation.vector_store_id
          conversation.database_ids with
      | (c1, ps1, Except.error e) => (c1, ps1, Except.error e)
      | (c1, ps1, Except.ok tools) =>
          (c1, ps1, Except.ok { tools := tools, verbose := true })

/-- Cached `get_agent`: memoises `get_agent_body` by the key
`(conversation_id, last_update_timestamp)`; on a miss the constructed
agent gets a fresh instance id and the construction is logged. -/
def get_agent (st : SessionState) (engines : String → Database)
    (c : ResourceCache) (ps : PineconeState) (conversation_id : String)
    (last_update_timestamp : Int) :
    ResourceCache × PineconeState × Except PyError (Nat × Agent) :=
  match lookupAL c.agents (conversation_id, last_update_timestamp) with
  | some entry => (c, ps, Except.ok entry)
  | none =>
      match get_agent_body st engines c ps conversation_id last_update_timestamp with
      | (c1, ps1, Except.error e) => (c1, ps1, Except.error e)
      | (c1, ps1, Except.ok agent) =>
          let inst := c1.next_agent_instance
          ({ c1 with
              agents := c1.agents ++ [((conversation_id, last_update_timestamp), (inst, agent))],
              agent_constructions :=
                c1.agent_constructions ++ [(conversation_id, last_update_timestamp)],
              next_agent_instance := c1.next_agent_instance + 1 },
           ps1, Except.ok (inst, agent))

/-! Concrete fixtures used to instantiate the theorems below. -/

/-- A concrete SQL engine: the query "SELECT" returns the two rows
(1, "a") and (2, "b"); there is one table "users". -/
def db0 : Database :=
  { exec := fun q =>
      if q = "SELECT" then [[Entry.intE 1, Entry.strE "a"], [Entry.intE 2, Entry.strE "b"]]
      else [],
    tables := ["users"],
    describe_tables := fun _ => "CREATE TABLE users (id INTEGER, name VARCHAR)" }

/-- An adapter whose `handler` attribute was never assigned. -/
def spec_unset : TrackingDatabaseToolSpec :=
  { sql_database := db0, handler := none }

/-- An adapter on which `set_handler(database_spec_handler)` was called. -/
def spec_registered : TrackingDatabaseToolSpec :=
  { sql_database := db0, handler := some (some HandlerRef.databaseSpecHandler) }

/-- An in-memory vector-store descriptor. -/
def props_mem : VectorStoreProps :=
  { store_type := VectorStoreType.InMemory, api_key := "k", environment := "e",
    index_name := "i" }

/-- An in-memory descriptor differing from `props_mem` only in its hosted
fields. -/
def props_mem2 : VectorStoreProps :=
  { store_type := VectorStoreType.InMemory, api_key := "other-key",
    environment := "other-env", index_name := "other-index" }

/-- A hosted (pinecone) vector-store descriptor. -/
def props_pine : VectorStoreProps :=
  { store_type := VectorStoreType.PineconeDB, api_key := "pk", environment := "pe",
    index_name := "chatdb-index" }

/-- A conversation referencing vector store "vs1" and no databases, with
an empty query-results queue. -/
def conv0 : Conversation :=
  { vector_store_id := "vs1", database_ids := [], query_results_queue := [] }

/-- A concrete session state: one database "db1", three vector stores,
one conversation "conv1" which is current. -/
def st0 : SessionState :=
  { databases := fun k => if k = "db1" then some { uri := "sqlite:///x" } else none,
    vector_stores := fun k =>
      if k = "vs1" then some props_mem
      else if k = "vs2" then some props_pine
      else if k = "vs3" then some props_mem2
      else none,
    conversations := fun k => if k = "conv1" then some conv0 else none,
    current_conversation := "conv1" }

/-- Engine semantics: every connection URI denotes `db0`. -/
def engines0 : String → Database := fun _ => db0

/-- The empty resource cache. -/
def c0 : ResourceCache :=
  { db_specs := [], db_spec_constructions := [], spec_heap := fun _ => spec_unset,
    next_db_instance := 0, storage_contexts := [], query_tools := [],
    agents := [], agent_constructions := [], next_agent_instance := 0 }

/-- A pinecone service with no indexes yet. -/
def ps0 : PineconeState :=
  { indexes := [], init_calls := [], create_calls := [] }

/-! Claim theorems. -/

/-- C1 (counterexample): at a concrete adapter, `load_data None` does
raise the `ValueError`, but the event trace shows a database connection
was opened first (the source enters the `with connect()` block before the
`None` test), refuting "no connection is opened". -/
theorem c1_counterexample :
    (load_data spec_unset none).1 =
      Except.error (PyError.valueError "A query parameter is necessary to filter the data") ∧
    DbEvent.connect ∈ (load_data spec_unset none).2 := by
  exact ⟨rfl, by decide⟩

/-- C1 (amended): for every adapter, `load_data None` raises `ValueError`
immediately and unrecovered, with no SQL executed and no handler invoked,
though a database connection is opened (and closed again by the `with`
block) before the check. -/
theorem c1_load_data_none (spec : TrackingDatabaseToolSpec) :
    load_data spec none =
      (Except.error (PyError.valueError "A query parameter is necessary to filter the data"),
       [DbEvent.connect]) := rfl

/-- C2: for every non-`None` query on an adapter with a registered
(truthy) handler, `load_data` opens a connection, executes the query,
invokes the handler with the original query string and the raw fetched
rows, and returns one document per row in row order, the i-th document's
text being the row's column values each converted with `str` and joined
with ", ". -/
theorem c2_load_data_rows (spec : TrackingDatabaseToolSpec) (q : String) (h : HandlerRef)
    (hh : spec.handler = some (some h)) :
    load_data spec (some q) =
      (Except.ok ((spec.sql_database.exec q).map row_document),
       [DbEvent.connect, DbEvent.execSQL q,
        DbEvent.handlerCall q (spec.sql_database.exec q)]) := by
  simp [load_data, hh]

/-- C2 witness: the adapter with the registered handler, on the query
"SELECT" returning rows (1, "a") and (2, "b"), yields the documents
"1, a" and "2, b" and the handler call with those raw rows. -/
theorem c2_witness :
    spec_registered.handler = some (some HandlerRef.databaseSpecHandler) ∧
    load_data spec_registered (some "SELECT") =
      (Except.ok [Document.mk "1, a", Document.mk "2, b"],
       [DbEvent.connect, DbEvent.execSQL "SELECT",
        DbEvent.handlerCall "SELECT"
          [[Entry.intE 1, Entry.strE "a"], [Entry.intE 2, Entry.strE "b"]]]) :=
  ⟨rfl, c2_load_data_rows spec_registered "SELECT" HandlerRef.databaseSpecHandler rfl⟩

/-- C5: the value computed by the body of `get_agent` does not depend on
the `last_update_timestamp` argument at all (the source binds it to `_`);
it is only ever used as part of the cache key. -/
theorem c5_timestamp_unused (st : SessionState) (engines : String → Database)
    (c : ResourceCache) (ps : PineconeState) (conversation_id : String) (t1 t2 : Int) :
    get_agent_body st engines c ps conversation_id t1 =
      get_agent_body st engines c ps conversation_id t2 := rfl

/-- C7 (counterexample): on an adapter whose `handler` attribute was
never assigned (the class only annotates it), a valid query makes the
guard `if self.handler:` itself raise `AttributeError`, refuting "load
data still succeeds". -/
theorem c7_counterexample :
    (load_data spec_unset (some "SELECT")).1 =
      Except.error (PyError.attributeError "handler") := rfl

/-- C7 (amended): the handler is optional only once the attribute exists:
after `set_handler(None)` the guard sees a falsy value, `load_data`
succeeds and the handler invocation is skipped; only an adapter on which
`set_handler` was never called faults at the guard. -/
theorem c7_handler_falsy (spec : TrackingDatabaseToolSpec) (q : String) :
    load_data (spec.set_handler none) (some q) =
      (Except.ok ((spec.sql_database.exec q).map row_document),
       [DbEvent.connect, DbEvent.execSQL q]) := rfl

/-- C9: `database_spec_handler` appends to the query-results queue of the
conversation designated by `current_conversation` and changes nothing
else: the databases and vector-stores mappings, the
`current_conversation` pointer, every other conversation, and the
designated conversation's other fields are all unchanged. -/
theorem c9_handler_frame (st : SessionState) (conv : Conversation) (q : String)
    (items : List Row)
    (h : st.conversations st.current_conversation = some conv) :
    ∃ st1, database_spec_handler st q items = Except.ok st1 ∧
      st1.databases = st.databases ∧
      st1.vector_stores = st.vector_stores ∧
      st1.current_conversation = st.current_conversation ∧
      (∀ cid, cid ≠ st.current_conversation → st1.conversations cid = st.conversations cid) ∧
      st1.conversations st.current_conversation =
        some { conv with query_results_queue := conv.query_results_queue ++ [(q, items)] } := by
  simp only [database_spec_handler, h]
  exact ⟨_, rfl, rfl, rfl, rfl, fun cid hc => if_neg hc, by simp⟩

/-- C9 witness: the frame property at the concrete session state. -/
theorem c9_witness :
    ∃ st1, database_spec_handler st0 "Q" [[Entry.intE 7]] = Except.ok st1 ∧
      st1.databases = st0.databases ∧
      st1.vector_stores = st0.vector_stores ∧
      st1.current_conversation = st0.current_conversation ∧
      (∀ cid, cid ≠ st0.current_conversation → st1.conversations cid = st0.conversations cid) ∧
      st1.conversations st0.current_conversation =
        some { conv0 with query_results_queue :=
          conv0.query_results_queue ++ [("Q", [[Entry.intE 7]])] } :=
  c9_handler_frame st0 conv0 "Q" [[Entry.intE 7]] rfl

/-- C10: for every in-memory descriptor the storage-context body ignores
the hosted fields and touches no hosted service: it returns the pinecone
state unchanged together with a fresh in-memory store, so any two
in-memory descriptors (in particular two differing only in API key,
environment or index name) produce equal storage contexts. -/
theorem c10_inmemory_independent (stA stB : SessionState) (ps : PineconeState)
    (idA idB : String) (pA pB : VectorStoreProps)
    (hA : stA.vector_stores idA = some pA)
    (htA : pA.store_type = VectorStoreType.InMemory)
    (hB : stB.vector_stores idB = some pB)
    (htB : pB.store_type = VectorStoreType.InMemory) :
    get_storage_context_body stA ps idA =
      (ps, Except.ok { vector_store := VectorStore.simple }) ∧
    get_storage_context_body stB ps idB = get_storage_context_body stA ps idA := by
  have eA : get_storage_context_body stA ps idA =
      (ps, Except.ok { vector_store := VectorStore.simple }) := by
    simp [get_storage_context_body, hA, get_vector_store_type, htA]
  have eB : get_storage_context_body stB ps idB =
      (ps, Except.ok { vector_store := VectorStore.simple }) := by
    simp [get_storage_context_body, hB, get_vector_store_type, htB]
  exact ⟨eA, eB.trans eA.symm⟩

/-- C10 witness: the two concrete in-memory descriptors "vs1" and "vs3"
of the fixture state differ only in hosted fields and give equal
results. -/
theorem c10_witness :
    get_storage_context_body st0 ps0 "vs1" =
      (ps0, Except.ok { vector_store := VectorStore.simple }) ∧
    get_storage_context_body st0 ps0 "vs3" = get_storage_context_body st0 ps0 "vs1" :=
  c10_inmemory_independent st0 st0 ps0 "vs1" "vs3" props_mem props_mem2 rfl rfl rfl rfl

/-- Helper: one `database_spec_handler` call on a state whose current
conversation exists succeeds and appends one tuple to that conversation's
queue, preserving the pointer. -/
theorem database_spec_handler_ok (st : SessionState) (conv : Conversation) (q : String)
    (items : List Row)
    (h : st.conversations st.current_conversation = some conv) :
    ∃ st1, database_spec_handler st q items = Except.ok st1 ∧
      st1.current_conversation = st.current_conversation ∧
      st1.conversations st.current_conversation =
        some { conv with query_results_queue := conv.query_results_queue ++ [(q, items)] } := by
  simp only [database_spec_handler, h]
  exact ⟨_, rfl, rfl, by simp⟩

/-- C3: executing a sequence of queries through the database tool (each a
`load_data` call on an adapter with the registered handler) appends
exactly one `(query, rows)` tuple per query to the current conversation's
queue, in execution order. -/
theorem c3_queue_order (spec : TrackingDatabaseToolSpec) (h : HandlerRef)
    (hh : spec.handler = some (some h)) :
    ∀ (qs : List String) (st : SessionState) (conv : Conversation),
      st.conversations st.current_conversation = some conv →
      ∃ st1, run_queries spec st qs = Except.ok st1 ∧
        st1.current_conversation = st.current_conversation ∧
        st1.conversations st.current_conversation =
          some { conv with query_results_queue :=
            conv.query_results_queue ++ qs.map (fun q => (q, spec.sql_database.exec q)) } := by
  intro qs
  induction qs with
  | nil =>
      intro st conv hc
      exact ⟨st, rfl, rfl, by simpa using hc⟩
  | cons q rest ih =>
      intro st conv hc
      have hld : (load_data spec (some q)).2 =
          [DbEvent.connect, DbEvent.execSQL q,
           DbEvent.handlerCall q (spec.sql_database.exec q)] := by
        simp [load_data, hh]
      obtain ⟨st1, hdb, hcur1, hc1⟩ :=
        database_spec_handler_ok st conv q (spec.sql_database.exec q) hc
      have hae : apply_events st (load_data spec (some q)).2 = Except.ok st1 := by
        rw [hld]
        simp only [apply_events, hdb]
      have hc1' : st1.conversations st1.current_conversation =
          some { conv with query_results_queue :=
            conv.query_results_queue ++ [(q, spec.sql_database.exec q)] } := by
        rw [hcur1]
        exact hc1
      obtain ⟨st2, hrun, hcur2, hq2⟩ := ih st1 _ hc1'
      refine ⟨st2, ?_, ?_, ?_⟩
      · simp only [run_queries, hae]
        exact hrun
      · rw [hcur2, hcur1]
      · rw [hcur1] at hq2
        rw [hq2]
        simp [List.append_assoc]

/-- C3 witness: two queries executed through the fixture adapter append
their two tuples in order. -/
theorem c3_witness :
    ∃ st1, run_queries spec_registered st0 ["SELECT", "Q2"] = Except.ok st1 ∧
      st1.current_conversation = st0.current_conversation ∧
      st1.conversations st0.current_conversation =
        some { conv0 with query_results_queue :=
          conv0.query_results_queue ++
            (["SELECT", "Q2"].map (fun q => (q, spec_registered.sql_database.exec q))) } :=
  c3_queue_order spec_registered HandlerRef.databaseSpecHandler rfl ["SELECT", "Q2"] st0
    conv0 rfl

/-- C6: for a hosted descriptor, the storage-context body binds to the
named remote index and issues a creation call (dimension 1536, metric
"cosine") exactly when the index name is absent from the existing
indexes; afterwards the name exists, so a repeated call creates nothing
and returns the same context. -/
theorem c6_hosted_create_iff (st : SessionState) (ps ps1 : PineconeState)
    (vector_store_id : String) (props : VectorStoreProps)
    (r1 : Except PyError StorageContext)
    (hvs : st.vector_stores vector_store_id = some props)
    (htype : props.store_type = VectorStoreType.PineconeDB)
    (heq : get_storage_context_body st ps vector_store_id = (ps1, r1)) :
    r1 = Except.ok { vector_store := VectorStore.pinecone props.index_name } ∧
    props.index_name ∈ ps1.indexes ∧
    (props.index_name ∉ ps.indexes →
      ps1.create_calls = ps.create_calls ++ [(props.index_name, 1536, "cosine")]) ∧
    (props.index_name ∈ ps.indexes →
      ps1.create_calls = ps.create_calls ∧ ps1.indexes = ps.indexes) ∧
    (∀ ps2 r2, get_storage_context_body st ps1 vector_store_id = (ps2, r2) →
      r2 = r1 ∧ ps2.create_calls = ps1.create_calls ∧ ps2.indexes = ps1.indexes) := by
  simp only [get_storage_context_body, get_vector_store_type, hvs, htype] at heq
  by_cases hmem : props.index_name ∈ ps.indexes
  · simp only [hmem, if_true] at heq
    injection heq with h1 h2
    subst h1
    refine ⟨h2.symm, hmem, fun hn => absurd hmem hn, fun _ => ⟨rfl, rfl⟩, ?_⟩
    intro ps2 r2 heq2
    simp only [get_storage_context_body, get_vector_store_type, hvs, htype, hmem,
      if_true] at heq2
    injection heq2 with h3 h4
    subst h3
    exact ⟨h4.symm.trans h2, rfl, rfl⟩
  · simp only [hmem, if_false] at heq
    injection heq with h1 h2
    subst h1
    have hmem1 : props.index_name ∈ ps.indexes ++ [props.index_name] := by simp
    refine ⟨h2.symm, hmem1, fun _ => rfl, fun hm => absurd hm hmem, ?_⟩
    intro ps2 r2 heq2
    simp only [get_storage_context_body, get_vector_store_type, hvs, htype, hmem1,
      if_true] at heq2
    injection heq2 with h3 h4
    subst h3
    exact ⟨h4.symm.trans h2, rfl, rfl⟩

/-- The pinecone state after building the fixture's hosted storage
context once, starting from an empty service. -/
def ps_after : PineconeState := (get_storage_context_body st0 ps0 "vs2").1

/-- The result of that first hosted storage-context build. -/
def r_after : Except PyError StorageContext := (get_storage_context_body st0 ps0 "vs2").2

/-- C6 witness: the hosted fixture descriptor "vs2" on an empty service:
the index is created once and a second call creates nothing. -/
theorem c6_witness :
    r_after = Except.ok { vector_store := VectorStore.pinecone props_pine.index_name } ∧
    props_pine.index_name ∈ ps_after.indexes ∧
    (props_pine.index_name ∉ ps0.indexes →
      ps_after.create_calls = ps0.create_calls ++ [(props_pine.index_name, 1536, "cosine")]) ∧
    (props_pine.index_name ∈ ps0.indexes →
      ps_after.create_calls = ps0.create_calls ∧ ps_after.indexes = ps0.indexes) ∧
    (∀ ps2 r2, get_storage_context_body st0 ps_after "vs2" = (ps2, r2) →
      r2 = r_after ∧ ps2.create_calls = ps_after.create_calls ∧
        ps2.indexes = ps_after.indexes) :=
  c6_hosted_create_iff st0 ps0 ps_after "vs2" props_pine r_after rfl rfl rfl

/-- C8: when the query tool and the adapter for the given ids are not yet
cached and both ids resolve in the session state, `get_query_tool`
succeeds and returns a tool whose metadata name is "table_query_engine"
and whose index was built from exactly one document per table of the
database, each carrying that table's description. -/
theorem c8_query_tool (st : SessionState) (engines : String → Database)
    (c : ResourceCache) (ps : PineconeState) (vector_store_id database_id : String)
    (dbp : DatabaseProps) (vsp : VectorStoreProps)
    (hqt : lookupAL c.query_tools (vector_store_id, database_id) = none)
    (hds : lookupAL c.db_specs database_id = none)
    (hdb : st.databases database_id = some dbp)
    (hvs : st.vector_stores vector_store_id = some vsp) :
    ∃ c1 ps1 qt, get_query_tool st engines c ps vector_store_id database_id =
        (c1, ps1, Except.ok qt) ∧
      qt.metadata.name = "table_query_engine" ∧
      qt.query_engine.index.documents =
        (engines dbp.uri).tables.map (fun table =>
          Document.mk ("Definition of \"" ++ table ++ "\" table:\n" ++
            (engines dbp.uri).describe_tables [table])) := by
  simp only [get_query_tool, hqt, get_database_spec, hds, hdb, get_storage_context]
  cases hsc : lookupAL c.storage_contexts vector_store_id with
  | some sc =>
      simp only [hsc]
      exact ⟨_, _, _, rfl, rfl, rfl⟩
  | none =>
      simp only [hsc, get_storage_context_body, get_vector_store_type, hvs]
      cases hvt : vsp.store_type with
      | InMemory =>
          simp only [hvt]
          exact ⟨_, _, _, rfl, rfl, rfl⟩
      | PineconeDB =>
          simp only [hvt]
          exact ⟨_, _, _, rfl, rfl, rfl⟩

/-- C8 witness: the concrete fixture produces the expected tool for the
one-table database. -/
theorem c8_witness :
    ∃ c1 ps1 qt, get_query_tool st0 engines0 c0 ps0 "vs1" "db1" =
        (c1, ps1, Except.ok qt) ∧
      qt.metadata.name = "table_query_engine" ∧
      qt.query_engine.index.documents =
        (engines0 (DatabaseProps.mk "sqlite:///x").uri).tables.map (fun table =>
          Document.mk ("Definition of \"" ++ table ++ "\" table:\n" ++
            (engines0 (DatabaseProps.mk "sqlite:///x").uri).describe_tables [table])) :=
  c8_query_tool st0 engines0 c0 ps0 "vs1" "db1" (DatabaseProps.mk "sqlite:///x") props_mem
    rfl rfl rfl rfl

/-- Helper: the cache fields belonging to the agent cache, unchanged. -/
def agents_untouched (c c1 : ResourceCache) : Prop :=
  c1.agents = c.agents ∧ c1.agent_constructions = c.agent_constructions ∧
  c1.next_agent_instance = c.next_agent_instance

/-- Helper: `agents_untouched` composes. -/
theorem agents_untouched_trans {a b c : ResourceCache}
    (h1 : agents_untouched a b) (h2 : agents_untouched b c) : agents_untouched a c :=
  ⟨h2.1.trans h1.1, h2.2.1.trans h1.2.1, h2.2.2.trans h1.2.2⟩

/-- Helper: `get_database_spec` leaves the agent cache untouched. -/
theorem get_database_spec_agents (st : SessionState) (engines : String → Database)
    (c : ResourceCache) (database_id : String) :
    agents_untouched c (get_database_spec st engines c database_id).1 := by
  simp only [get_database_spec]
  split
  · exact ⟨rfl, rfl, rfl⟩
  · split
    · exact ⟨rfl, rfl, rfl⟩
    · exact ⟨rfl, rfl, rfl⟩

/-- Helper: `get_storage_context` leaves the agent cache untouched. -/
theorem get_storage_context_agents (st : SessionState) (c : ResourceCache)
    (ps : PineconeState) (vector_store_id : String) :
    agents_untouched c (get_storage_context st c ps vector_store_id).1 := by
  simp only [get_storage_context]
  split
  · exact ⟨rfl, rfl, rfl⟩
  · split
    · exact ⟨rfl, rfl, rfl⟩
    · exact ⟨rfl, rfl, rfl⟩

/-- Helper: `get_query_tool` leaves the agent cache untouched. -/
theorem get_query_tool_agents (st : SessionState) (engines : String → Database)
    (c : ResourceCache) (ps : PineconeState) (vector_store_id database_id : String) :
    agents_untouched c (get_query_tool st engines c ps vector_store_id database_id).1 := by
  simp only [get_query_tool]
  split
  · exact ⟨rfl, rfl, rfl⟩
  · split
    · rename_i c1 e heq
      have h1 := get_database_spec_agents st engines c database_id
      rw [heq] at h1
      exact h1
    · rename_i c1 inst db_spec heq
      have h1 := get_database_spec_agents st engines c database_id
      rw [heq] at h1
      split
      · rename_i c2 ps2 e heq2
        have h2 := get_storage_context_agents st c1 ps vector_store_id
        rw [heq2] at h2
        exact agents_untouched_trans h1 h2
      · rename_i c2 ps2 sc heq2
        have h2 := get_storage_context_agents st c1 ps vector_store_id
        rw [heq2] at h2
        exact agents_untouched_trans h1 h2

/-- Helper: the tool-building loop leaves the agent cache untouched. -/
theorem build_tools_agents (st : SessionState) (engines : String → Database) :
    ∀ (ids : List String) (c : ResourceCache) (ps : PineconeState)
      (vector_store_id : String),
      agents_untouched c (build_tools st engines c ps vector_store_id ids).1 := by
  intro ids
  induction ids with
  | nil =>
      intro c ps vector_store_id
      exact ⟨rfl, rfl, rfl⟩
  | cons d rest ih =>
      intro c ps vector_store_id
      simp only [build_tools]
      split
      · rename_i c1 e heq
        have h1 := get_database_spec_agents st engines c d
        rw [heq] at h1
        exact h1
      · rename_i c1 inst db_spec heq
        have h1 := get_database_spec_agents st engines c d
        rw [heq] at h1
        split
        · rename_i c2 ps2 e heq2
          have h2 := get_query_tool_agents st engines c1 ps vector_store_id d
          rw [heq2] at h2
          exact agents_untouched_trans h1 h2
        · rename_i c2 ps2 qt heq2
          have h2 := get_query_tool_agents st engines c1 ps vector_store_id d
          rw [heq2] at h2
          split
          · rename_i c4 ps4 e heq4
            have h4 := ih { c2 with spec_heap := fun n => if n = inst then (c2.spec_heap n).set_handler (some HandlerRef.databaseSpecHandler) else c2.spec_heap n } ps2 vector_store_id
            rw [heq4] at h4
            exact agents_untouched_trans (agents_untouched_trans h1 h2)
              (agents_untouched_trans ⟨rfl, rfl, rfl⟩ h4)
          · rename_i c4 ps4 tools heq4
            have h4 := ih { c2 with spec_heap := fun n => if n = inst then (c2.spec_heap n).set_handler (some HandlerRef.databaseSpecHandler) else c2.spec_heap n } ps2 vector_store_id
            rw [heq4] at h4
            exact agents_untouched_trans (agents_untouched_trans h1 h2)
              (agents_untouched_trans ⟨rfl, rfl, rfl⟩ h4)

/-- Helper: the agent-builder body leaves the agent cache untouched (it
only fills the adapter, storage-context and query-tool caches). -/
theorem get_agent_body_agents (st : SessionState) (engines : String → Database)
    (c : ResourceCache) (ps : PineconeState) (conversation_id : String) (t : Int) :
    agents_untouched c (get_agent_body st engines c ps conversation_id t).1 := by
  simp only [get_agent_body]
  split
  · exact ⟨rfl, rfl, rfl⟩
  · rename_i conv hconv
    split
    · rename_i c1 ps1 e heq
      have h1 := build_tools_agents st engines conv.database_ids c ps conv.vector_store_id
      rw [heq] at h1
      exact h1
    · rename_i c1 ps1 tools heq
      have h1 := build_tools_agents st engines conv.database_ids c ps conv.vector_store_id
      rw [heq] at h1
      exact h1

/-- Helper: appending a fresh binding to an association list with no
binding for the key makes lookup find it. -/
theorem lookupAL_append_none {α β : Type} [DecidableEq α] (l : List (α × β)) (key : α)
    (v : β) (h : lookupAL l key = none) :
    lookupAL (l ++ [(key, v)]) key = some v := by
  induction l with
  | nil => simp [lookupAL]
  | cons p rest ih =>
      obtain ⟨k, w⟩ := p
      by_cases hk : key = k
      · simp [lookupAL, hk] at h
      · simp only [List.cons_append, lookupAL, if_neg hk] at h ⊢
        exact ih h

/-- C4: under the per-key resource cache — after a first
`get_database_spec` call constructed the adapter for an unseen database
id, a repeated call returns the very same instance and the construction
log still records exactly one construction for that id; after a first
`get_agent` call constructed and cached the agent for an unseen
(conversation id, timestamp) key, calling again with the same key returns
the same cached agent and the cache unchanged, while a call with a
changed, unseen timestamp performs a new construction and returns a new
agent instance. -/
theorem c4_cache_identity (st : SessionState) (engines : String → Database)
    (c : ResourceCache) (ps : PineconeState) (database_id : String) (dbp : DatabaseProps)
    (conversation_id : String) (t t' : Int)
    (c1 : ResourceCache) (i1 : Nat) (s1 : TrackingDatabaseToolSpec)
    (cA : ResourceCache) (psA : PineconeState) (j1 : Nat) (a1 : Agent)
    (cB : ResourceCache) (psB : PineconeState) (j2 : Nat) (a2 : Agent)
    (hds : lookupAL c.db_specs database_id = none)
    (hdb : st.databases database_id = some dbp)
    (hcount : List.count database_id c.db_spec_constructions = 0)
    (hcall : get_database_spec st engines c database_id = (c1, Except.ok (i1, s1)))
    (hagsA : lookupAL c.agents (conversation_id, t) = none)
    (hcallA : get_agent st engines c ps conversation_id t = (cA, psA, Except.ok (j1, a1)))
    (hagsB : lookupAL cA.agents (conversation_id, t') = none)
    (hcallB : get_agent st engines cA psA conversation_id t' =
      (cB, psB, Except.ok (j2, a2))) :
    get_database_spec st engines c1 database_id = (c1, Except.ok (i1, s1)) ∧
    List.count database_id c1.db_spec_constructions = 1 ∧
    get_agent st engines cA psA conversation_id t = (cA, psA, Except.ok (j1, a1)) ∧
    j2 ≠ j1 ∧
    cB.agent_constructions = cA.agent_constructions ++ [(conversation_id, t')] := by
  -- Part A: massage the first adapter-construction call.
  simp only [get_database_spec, hds, hdb] at hcall
  injection hcall with hc1 hok
  injection hok with hok
  injection hok with hi hs
  subst hc1
  subst hi
  subst hs
  have hlook : lookupAL (c.db_specs ++ [(database_id, c.next_db_instance)]) database_id =
      some c.next_db_instance :=
    lookupAL_append_none c.db_specs database_id c.next_db_instance hds
  -- Part B: massage the first agent-construction call.
  simp only [get_agent, hagsA] at hcallA
  split at hcallA
  · rename_i cb psb e heqA
    simp at hcallA
  rename_i cb psb ag heqA
  injection hcallA with hcA hrest
  injection hrest with hpsA hok2
  injection hok2 with hok2
  injection hok2 with hj ha
  subst hcA
  subst hpsA
  subst hj
  subst ha
  obtain ⟨hags_eq, hcons_eq, hnext_eq⟩ := by
    have hu := get_agent_body_agents st engines c ps conversation_id t
    rw [heqA] at hu
    exact hu
  -- Part C: massage the second, changed-timestamp call.
  simp only [get_agent, hagsB] at hcallB
  split at hcallB
  · rename_i cb2 psb2 e heqB
    simp at hcallB
  rename_i cb2 psb2 ag2 heqB
  injection hcallB with hcB hrest2
  injection hrest2 with hpsB hok3
  injection hok3 with hok3
  injection hok3 with hj2 ha2
  subst hcB
  subst hpsB
  subst hj2
  subst ha2
  obtain ⟨hags_eq2, hcons_eq2, hnext_eq2⟩ := by
    have hu2 := get_agent_body_agents st engines { cb with agents := cb.agents ++ [((conversation_id, t), (cb.next_agent_instance, ag))], agent_constructions := cb.agent_constructions ++ [(conversation_id, t)], next_agent_instance := cb.next_agent_instance + 1 } psb conversation_id t'
    rw [heqB] at hu2
    exact hu2
  have hnext2' : cb2.next_agent_instance = cb.next_agent_instance + 1 := hnext_eq2
  have hcons2' : cb2.agent_constructions = cb.agent_constructions ++ [(conversation_id, t)] :=
    hcons_eq2
  -- Now the five conclusions.
  refine ⟨?_, ?_, ?_, ?_, ?_⟩
  · simp [get_database_spec, hlook]
  · simp [List.count_append, hcount]
  · have hlookA : lookupAL
        (cb.agents ++ [((conversation_id, t), (cb.next_agent_instance, ag))])
        (conversation_id, t) = some (cb.next_agent_instance, ag) := by
      apply lookupAL_append_none
      rw [hags_eq]
      exact hagsA
    simp [get_agent, hlookA]
  · omega
  · simp [hcons2']

/-- The adapter constructed for the fixture database "db1". -/
def spec_db1 : TrackingDatabaseToolSpec :=
  { sql_database := engines0 "sqlite:///x", handler := none }

/-- The agent built for the fixture conversation (no databases). -/
def agent0 : Agent := { tools := [], verbose := true }

/-- The cache after constructing the adapter for "db1". -/
def c4_c1 : ResourceCache := (get_database_spec st0 engines0 c0 "db1").1

/-- The cache after the first `get_agent` call (key ("conv1", 0)). -/
def c4_cA : ResourceCache := (get_agent st0 engines0 c0 ps0 "conv1" 0).1

/-- The cache after the second `get_agent` call (key ("conv1", 1)). -/
def c4_cB : ResourceCache := (get_agent st0 engines0 c4_cA ps0 "conv1" 1).1

/-- C4 witness: the concrete fixture exhibits the cache behaviour — one
adapter construction for "db1", a repeated agent call hitting the cache,
and a changed timestamp constructing agent instance 1 ≠ 0. -/
theorem c4_witness :
    get_database_spec st0 engines0 c4_c1 "db1" = (c4_c1, Except.ok (0, spec_db1)) ∧
    List.count "db1" c4_c1.db_spec_constructions = 1 ∧
    get_agent st0 engines0 c4_cA ps0 "conv1" 0 = (c4_cA, ps0, Except.ok (0, agent0)) ∧
    (1 : Nat) ≠ 0 ∧
    c4_cB.agent_constructions = c4_cA.agent_constructions ++ [("conv1", 1)] :=
  c4_cache_identity st0 engines0 c0 ps0 "db1" (DatabaseProps.mk "sqlite:///x") "conv1" 0 1
    c4_c1 0 spec_db1 c4_cA ps0 0 agent0 c4_cB ps0 1 agent0
    rfl rfl rfl rfl rfl rfl rfl rfl

end ChatDB
